import Mathlib

/-!
Shallow embedding of `webapp/static/js/main.js` (poker mini-app front end):
the room/banner rendering functions, the cache-aware loader
`loadDataWithCache`, the parallel loader `loadData`, the cache-save block,
and the periodic room refresh tick.  JavaScript objects with possibly
absent (`undefined`/`null`) fields are embedded with `Option` fields;
JavaScript's `x || d` falsy-default idiom is embedded by explicit
dispatch on `none` / `some ""` / `some 0`; a thrown `TypeError`
(`room.status.toUpperCase()` on a missing status) is embedded as a
Boolean "threw" flag carrying the partially built DOM content.
Asynchronous control flow is embedded as an event trace: each run of a
loader produces, besides the final state, the ordered list of observable
events (requests issued, responses resolved, renders, cache writes, the
point where control returns to the caller).
-/

namespace PokerApp

/-- A room record as served by `/api/rooms`; every field the renderer
touches, `Option` marking fields that may be absent in the JSON. -/
structure RoomRecord where
  room_name : Option String
  status : Option String
  blinds : Option String
  min_buyin : Option String
  current_players : Option Nat
  max_players : Option Nat
  game_time : Option String
  deriving DecidableEq, Repr

/-- A banner record as served by `/api/banners`. -/
structure BannerRecord where
  id : Nat
  title : Option String
  description : Option String
  image_url : Option String
  link_url : Option String
  deriving DecidableEq, Repr

/-- The visible text content of one rendered room card
(`card.innerHTML` fields of `renderRooms`). -/
structure RoomCard where
  name : String
  status : String
  blinds : String
  min_buyin : String
  players : String
  game_time : String
  deriving DecidableEq, Repr

/-- One child node of the `room-list` container: the empty-list
placeholder (`현재 활성화된 포커방이 없습니다`), the load-error
placeholder written by `loadData`'s catch block
(`데이터를 불러올 수 없습니다`), or a room card. -/
inductive Node where
  | placeholder : Node
  | loadError : Node
  | card : RoomCard → Node
  deriving DecidableEq, Repr

/-- The visible content of one banner slide built by `displayBanners`. -/
structure BannerSlideView where
  image_url : String
  link_url : String
  title : String
  desc : String
  isLink : Bool
  deriving DecidableEq, Repr

/-- One child node of the `banner-container`: the administrative-contact
placeholder slide (`배너를 추가해주세요 / 관리자에게 문의`) or a banner
slide. -/
inductive Slide where
  | placeholder : Slide
  | banner : BannerSlideView → Slide
  deriving DecidableEq, Repr

/-- JavaScript `x || '-'`: `undefined`, `null` and `""` are falsy. -/
def orDash : Option String → String
  | none => "-"
  | some "" => "-"
  | some s => s

/-- JavaScript `x || 0` on a numeric field: absent gives `0` (and `0`
itself is falsy, giving `0` again). -/
def orZero : Option Nat → Nat
  | none => 0
  | some n => n

/-- JavaScript `x || 10` on a numeric field: absent and `0` are falsy,
both give the fixed default capacity `10`. -/
def orTen : Option Nat → Nat
  | none => 10
  | some 0 => 10
  | some n => n

/-- A template literal `${x}` of a possibly-undefined value: JavaScript
stringifies `undefined` to the text `undefined`. -/
def jsShow : Option String → String
  | none => "undefined"
  | some s => s

/-- JavaScript `s.toUpperCase()`, embedded as a character-wise map. -/
def jsToUpper (s : String) : String :=
  ⟨s.data.map Char.toUpper⟩

/-- The card built for one room once `room.status.toUpperCase()` has
succeeded with status text `s` (the rest of `card.innerHTML`). -/
def mkCard (r : RoomRecord) (s : String) : RoomCard :=
  { name := jsShow r.room_name
    status := jsToUpper s
    blinds := orDash r.blinds
    min_buyin := orDash r.min_buyin
    players := toString (orZero r.current_players) ++ " / "
      ++ toString (orTen r.max_players) ++ " Playing"
    game_time := orDash r.game_time }

/-- Building one room card; `none` embeds the `TypeError` thrown by
`room.status.toUpperCase()` when `status` is absent. -/
def renderCard (r : RoomRecord) : Option RoomCard :=
  r.status.map (mkCard r)

/-- The card-appending loop of `renderRooms`: returns the container
children present when the loop ends, and whether it ended by throwing.
A throw at record `k` leaves the cards for records `0..k-1` appended. -/
def renderRoomsAux : List RoomRecord → List Node × Bool
  | [] => ([], false)
  | r :: rs =>
    match r.status with
    | none => ([], true)
    | some s =>
      let (ns, threw) := renderRoomsAux rs
      (Node.card (mkCard r s) :: ns, threw)

/-- `renderRooms(rooms)`: clears the `room-list` container, then either
appends the single empty-list placeholder or one card per record;
returns the resulting container children and a throw flag. -/
def renderRooms (rooms : List RoomRecord) : List Node × Bool :=
  match rooms with
  | [] => ([Node.placeholder], false)
  | _ => renderRoomsAux rooms

/-- Every record has a status field present, so `renderRooms` cannot
throw on the list. -/
def roomsOk (rooms : List RoomRecord) : Bool :=
  rooms.all (fun r => r.status.isSome)

/-- JavaScript `x || d` on a string field (`undefined`, `null`, `""`
are falsy). -/
def orStr : Option String → String → String
  | none, d => d
  | some "", d => d
  | some s, _ => s

/-- Truthiness of a possibly-absent string (the `b.link_url ? ... : ...`
dispatch of `displayBanners`). -/
def isTruthy : Option String → Bool
  | none => false
  | some "" => false
  | some _ => true

/-- The slide view built for one banner record, with the `||` defaults
of `displayBanners`. -/
def slideView (b : BannerRecord) : BannerSlideView :=
  { image_url := orStr b.image_url ""
    link_url := orStr b.link_url "#"
    title := orStr b.title "배너"
    desc := orStr b.description ""
    isLink := isTruthy b.link_url }

/-- The slides `displayBanners` puts in the `banner-container`: the
single administrative-contact placeholder for an empty list, otherwise
one slide per banner. -/
def slidesFor (banners : List BannerRecord) : List Slide :=
  match banners with
  | [] => [Slide.placeholder]
  | _ => banners.map (fun b => Slide.banner (slideView b))

/-- The two read endpoints. -/
inductive Endpoint where
  | banners : Endpoint
  | rooms : Endpoint
  deriving DecidableEq, Repr

/-- The banner-and-room payload kept in the cache entry
(`data: { banners, rooms }`). -/
structure CacheData where
  banners : List BannerRecord
  rooms : List RoomRecord
  deriving DecidableEq, Repr

/-- One parsed cache entry (`{ data, timestamp }`), timestamp in
milliseconds since the epoch. -/
structure CacheEntry where
  data : CacheData
  timestamp : Int
  deriving DecidableEq, Repr

/-- The `poker_data_cache` localStorage slot: absent
(`getItem` returns `null`), present but failing `JSON.parse`
(malformed), or a parsed `{ data, timestamp }` entry. -/
inductive StoredCache where
  | absent : StoredCache
  | malformed : StoredCache
  | entry : CacheEntry → StoredCache
  deriving DecidableEq, Repr

/-- The outcome of one `fetch` of an endpoint: the promise rejects
(transport error), it resolves with a non-success status
(`res.ok` false), or it resolves with a success status and a JSON
body. -/
inductive FetchRes (α : Type) where
  | netError : FetchRes α
  | httpError : Nat → FetchRes α
  | ok : α → FetchRes α
  deriving DecidableEq, Repr

/-- Whether a fetch resolved with a success status. -/
def FetchRes.isOk {α : Type} : FetchRes α → Bool
  | .ok _ => true
  | _ => false

/-- The observable events of one loader run, in program order. -/
inductive Ev where
  | issued : Endpoint → Ev
  | resolved : Endpoint → Ev
  | renderedRooms : List Node → Ev
  | renderedBanners : List Slide → Ev
  | swiperNew : Ev
  | swiperUpdate : Ev
  | cacheWrite : CacheEntry → Ev
  | cacheWarn : Ev
  | bgStart : Ev
  | ret : Ev
  | errLog : Ev
  deriving DecidableEq, Repr

/-- The mutable page state: children of the `room-list` container,
children of the `banner-container`, the module-level `swiperInstance`
(`none` before construction, `some n` after construction and `n`
in-place updates), and the localStorage cache slot. -/
structure St where
  roomList : List Node
  bannerSlides : List Slide
  swiper : Option Nat
  cache : StoredCache
  deriving DecidableEq, Repr

/-- The responses of one banner-fetch/room-fetch pair. -/
structure Resp where
  banners : FetchRes (List BannerRecord)
  rooms : FetchRes (List RoomRecord)
  deriving DecidableEq, Repr

/-- Both fetches of a pair resolved with success status. -/
def Resp.allOk (r : Resp) : Bool :=
  r.banners.isOk && r.rooms.isOk

/-- The environment of one `loadDataWithCache` run: `Date.now()` at the
freshness check, the responses consumed by the single `loadData` call
the run makes (the main load on a cache miss, the background refresh on
a cache hit), the responses of the cache-save fetch pair, and
`Date.now()` at the cache save. -/
structure Env where
  now : Int
  resp1 : Resp
  respSave : Resp
  nowSave : Int
  deriving DecidableEq, Repr

/-- `CACHE_DURATION = 5 * 60 * 1000` milliseconds. -/
def CACHE_DURATION : Int := 5 * 60 * 1000

/-- `displayBanners(banners)`: clears the container, appends either the
single administrative-contact placeholder slide or one slide per
banner, then updates the Swiper in place when `swiperInstance` already
exists and constructs it exactly when it does not. -/
def displayBanners (st : St) (banners : List BannerRecord) :
    St × List Ev :=
  let slides := slidesFor banners
  match st.swiper with
  | some n =>
    ({ st with bannerSlides := slides, swiper := some (n + 1) },
     [Ev.renderedBanners slides, Ev.swiperUpdate])
  | none =>
    ({ st with bannerSlides := slides, swiper := some 0 },
     [Ev.renderedBanners slides, Ev.swiperNew])

/-- The two requests issued by evaluating
`Promise.all([fetch('/api/banners'), fetch('/api/rooms')])`: both are
issued synchronously, before either resolves. -/
def issueEvs : List Ev := [Ev.issued Endpoint.banners, Ev.issued Endpoint.rooms]

/-- The part of `loadData` after its first `await`: both responses
resolve; on any transport error or non-success status the catch block
writes the load-error placeholder into the room list; otherwise the
banners are displayed and the rooms rendered, a render throw being
caught by the same catch block which then overwrites the partial room
list with the load-error placeholder. -/
def loadDataRest (st : St) (r : Resp) : St × List Ev :=
  match r.banners, r.rooms with
  | FetchRes.ok bs, FetchRes.ok rs =>
    let (st1, evB) := displayBanners st bs
    let (nodes, threw) := renderRooms rs
    if threw then
      ({ st1 with roomList := [Node.loadError] },
       [Ev.resolved Endpoint.banners, Ev.resolved Endpoint.rooms] ++ evB
         ++ [Ev.renderedRooms nodes, Ev.errLog,
             Ev.renderedRooms [Node.loadError]])
    else
      ({ st1 with roomList := nodes },
       [Ev.resolved Endpoint.banners, Ev.resolved Endpoint.rooms] ++ evB
         ++ [Ev.renderedRooms nodes])
  | _, _ =>
    ({ st with roomList := [Node.loadError] },
     [Ev.resolved Endpoint.banners, Ev.resolved Endpoint.rooms, Ev.errLog,
      Ev.renderedRooms [Node.loadError]])

/-- `loadData()`: issues both endpoint fetches concurrently, then runs
the rest of the body; never rejects (all failures are caught inside). -/
def loadData (st : St) (r : Resp) : St × List Ev :=
  let (st1, evs) := loadDataRest st r
  (st1, issueEvs ++ evs)

/-- The cache-save block at the end of `loadDataWithCache`: a second,
sequential fetch pair (`await fetch('/api/banners')` then
`await fetch('/api/rooms')`); when both resolve with success status the
slot is overwritten with `{ data, timestamp: Date.now() }`, otherwise
nothing is written (a transport error on the banner fetch skips the
room fetch entirely). -/
def savePath (st : St) (r : Resp) (t : Int) : St × List Ev :=
  match r.banners with
  | FetchRes.netError =>
    (st, [Ev.issued Endpoint.banners, Ev.resolved Endpoint.banners,
          Ev.errLog])
  | FetchRes.httpError _ =>
    match r.rooms with
    | FetchRes.netError =>
      (st, [Ev.issued Endpoint.banners, Ev.resolved Endpoint.banners,
            Ev.issued Endpoint.rooms, Ev.resolved Endpoint.rooms, Ev.errLog])
    | _ =>
      (st, [Ev.issued Endpoint.banners, Ev.resolved Endpoint.banners,
            Ev.issued Endpoint.rooms, Ev.resolved Endpoint.rooms])
  | FetchRes.ok bs =>
    match r.rooms with
    | FetchRes.netError =>
      (st, [Ev.issued Endpoint.banners, Ev.resolved Endpoint.banners,
            Ev.issued Endpoint.rooms, Ev.resolved Endpoint.rooms, Ev.errLog])
    | FetchRes.httpError _ =>
      (st, [Ev.issued Endpoint.banners, Ev.resolved Endpoint.banners,
            Ev.issued Endpoint.rooms, Ev.resolved Endpoint.rooms])
    | FetchRes.ok rs =>
      let e : CacheEntry := { data := { banners := bs, rooms := rs },
                              timestamp := t }
      ({ st with cache := StoredCache.entry e },
       [Ev.issued Endpoint.banners, Ev.resolved Endpoint.banners,
        Ev.issued Endpoint.rooms, Ev.resolved Endpoint.rooms,
        Ev.cacheWrite e])

/-- The cache-miss path of `loadDataWithCache`: `await loadData()` then
the cache-save block, then return to the caller. -/
def missPath (st : St) (env : Env) : St × List Ev :=
  let (st1, t1) := loadData st env.resp1
  let (st2, t2) := savePath st1 env.respSave env.nowSave
  (st2, t1 ++ t2 ++ [Ev.ret])

/-- `loadDataWithCache()`: read the slot; a parse failure is caught,
logged and falls through to the miss path; a parsed entry is fresh
exactly when `Date.now() - timestamp < CACHE_DURATION`; a fresh entry
is rendered immediately (banners, then rooms), then `loadData()` is
started without `await` — its synchronous segment issues both fetches,
control returns to the caller (`Ev.ret`), and the rest of the refresh
runs afterwards; a throw while rendering the cached rooms is caught by
the same catch and falls through to the miss path; a stale or absent
entry takes the miss path directly. -/
def loadDataWithCache (st : St) (env : Env) : St × List Ev :=
  match st.cache with
  | StoredCache.absent => missPath st env
  | StoredCache.malformed =>
    let (st1, t1) := missPath st env
    (st1, Ev.cacheWarn :: t1)
  | StoredCache.entry e =>
    if env.now - e.timestamp < CACHE_DURATION then
      let (st1, evB) := displayBanners st e.data.banners
      let (nodes, threw) := renderRooms e.data.rooms
      if threw then
        let (st2, t2) := missPath { st1 with roomList := nodes } env
        (st2, evB ++ [Ev.renderedRooms nodes, Ev.cacheWarn] ++ t2)
      else
        let (st2, tRest) := loadDataRest { st1 with roomList := nodes }
          env.resp1
        (st2, evB ++ [Ev.renderedRooms nodes, Ev.bgStart] ++ issueEvs
          ++ [Ev.ret] ++ tRest)
    else
      missPath st env

/-- One tick of `startAutoRefresh`'s 3-second interval:
`fetchJSON('/api/rooms')` then `renderRooms`; a fetch rejection or
non-success status throws before `renderRooms` runs and is caught and
logged, leaving the list untouched; a render throw is caught by the
same handler but only after `renderRooms` has already replaced the
list content. -/
def refreshTick (st : St) (r : FetchRes (List RoomRecord)) :
    St × List Ev :=
  match r with
  | FetchRes.ok rooms =>
    let (nodes, threw) := renderRooms rooms
    ({ st with roomList := nodes },
     if threw then
       [Ev.issued Endpoint.rooms, Ev.resolved Endpoint.rooms,
        Ev.renderedRooms nodes, Ev.errLog]
     else
       [Ev.issued Endpoint.rooms, Ev.resolved Endpoint.rooms,
        Ev.renderedRooms nodes])
  | _ =>
    (st, [Ev.issued Endpoint.rooms, Ev.resolved Endpoint.rooms, Ev.errLog])

/-- A sequence of `displayBanners` calls, threading the page state and
concatenating the traces. -/
def runBanners : St → List (List BannerRecord) → St × List Ev
  | st, [] => (st, [])
  | st, bs :: rest =>
    let (st1, t1) := displayBanners st bs
    let (st2, t2) := runBanners st1 rest
    (st2, t1 ++ t2)

/-- A run is served from cache exactly when its very first observable
event is a banner render (the cached render precedes any network
request); on every other path the trace starts with a request or the
parse-failure log. -/
def servedFromCache : List Ev → Bool
  | Ev.renderedBanners _ :: _ => true
  | _ => false

/-- The room record of the spec's worked example:
`{id:1, room_name:"Table A", status:"open", current_players:3}`. -/
def tableA : RoomRecord :=
  { room_name := some "Table A", status := some "open", blinds := none,
    min_buyin := none, current_players := some 3, max_players := none,
    game_time := none }

/-- The card the example record renders to. -/
def tableACard : RoomCard :=
  { name := "Table A", status := "OPEN", blinds := "-", min_buyin := "-",
    players := "3 / 10 Playing", game_time := "-" }

/-- A room record whose `status` field is absent. -/
def badRoom : RoomRecord :=
  { room_name := some "Bad", status := none, blinds := some "1/2",
    min_buyin := some "100", current_players := some 2,
    max_players := some 9, game_time := some "20:00" }

/-- A room record whose `status` field is present but empty (degenerate
text). -/
def emptyStatusRoom : RoomRecord :=
  { room_name := some "Empty", status := some "", blinds := none,
    min_buyin := none, current_players := none, max_players := none,
    game_time := none }

/-- A fully populated room record. -/
def room2 : RoomRecord :=
  { room_name := some "Table B", status := some "full",
    blinds := some "2/4", min_buyin := some "200",
    current_players := some 9, max_players := some 9,
    game_time := some "21:00" }

/-- A sample banner record. -/
def banner1 : BannerRecord :=
  { id := 1, title := some "Promo", description := none,
    image_url := some "https://x/img.png", link_url := none }

/- Helper lemmas about the renderer. -/

theorem renderRooms_ne_nil {rooms : List RoomRecord} (h : rooms ≠ []) :
    renderRooms rooms = renderRoomsAux rooms := by
  cases rooms with
  | nil => exact absurd rfl h
  | cons r rs => rfl

theorem renderRoomsAux_ok : ∀ rs : List RoomRecord, roomsOk rs = true →
    renderRoomsAux rs
      = (rs.map (fun r => Node.card (mkCard r (r.status.getD ""))), false)
  | [], _ => rfl
  | r :: rs, h => by
    have h' : r.status.isSome = true ∧ roomsOk rs = true := by
      simpa [roomsOk, List.all_cons, Bool.and_eq_true] using h
    obtain ⟨s, hs⟩ := Option.isSome_iff_exists.mp h'.1
    have ih := renderRoomsAux_ok rs h'.2
    simp [renderRoomsAux, hs, ih]

theorem renderRoomsAux_bad : ∀ rs : List RoomRecord,
    (∃ r ∈ rs, r.status = none) →
    (renderRoomsAux rs).snd = true
      ∧ (renderRoomsAux rs).fst.length < rs.length
  | [], h => by simp at h
  | r :: rs, h => by
    cases hs : r.status with
    | none => simp [renderRoomsAux, hs]
    | some s =>
      have hrs : ∃ x ∈ rs, x.status = none := by
        rcases h with ⟨x, hx, hxn⟩
        rcases List.mem_cons.mp hx with h1 | h2
        · rw [h1, hs] at hxn; exact absurd hxn (by simp)
        · exact ⟨x, h2, hxn⟩
      have ih := renderRoomsAux_bad rs hrs
      simp only [renderRoomsAux, hs, List.length_cons]
      constructor
      · exact ih.1
      · simpa using Nat.succ_lt_succ ih.2

/-- C4 (amended): for every room list in which each record has a status
field present, a list of length 0 renders to exactly the one
placeholder node (and zero room cards), and a list of length N > 0
renders to exactly N room-card nodes, one per record in order, without
throwing.  (The status-present restriction is forced by the
counterexample: a record with an absent status makes `renderRooms`
throw and produce fewer cards.) -/
theorem c4_render_counts (rooms : List RoomRecord)
    (h : roomsOk rooms = true) :
    (rooms = [] → renderRooms rooms = ([Node.placeholder], false))
    ∧ (rooms ≠ [] →
        (renderRooms rooms).fst
            = rooms.map (fun r => Node.card (mkCard r (r.status.getD "")))
          ∧ (renderRooms rooms).fst.length = rooms.length
          ∧ (renderRooms rooms).snd = false) := by
  constructor
  · intro he; subst he; rfl
  · intro hne
    rw [renderRooms_ne_nil hne, renderRoomsAux_ok rooms h]
    simp

/-- C4 counterexample: the claim promises exactly N card nodes for every
list of length N > 0, but the singleton list holding a record with an
absent status renders to zero cards (the render throws). -/
theorem c4_cex :
    (renderRooms [badRoom]).fst.length = 0
    ∧ ([badRoom] : List RoomRecord).length = 1 := by decide

/-- C4 witness: the amended theorem applied to the singleton example
list. -/
theorem c4_witness :
    roomsOk [tableA] = true
    ∧ (renderRooms [tableA]).fst.length = ([tableA] : List RoomRecord).length :=
  ⟨by decide,
    ((c4_render_counts [tableA] (by decide)).2 (by decide)).2.1⟩

/-- C5 (amended): for every room record that renders to a card, the
degenerate text fields `blinds`, `min_buyin` and `game_time` render as
the dash glyph, `current_players` defaults to 0 and `max_players` to
the fixed capacity 10, and `status` is rendered uppercased as-is (it
has no dash default; the counterexample shows an empty status rendering
as the empty string); the spec's example record renders with status
"OPEN" and players "3 / 10". -/
theorem c5_defaults (r : RoomRecord) (c : RoomCard)
    (h : renderCard r = some c) :
    ((r.blinds = none ∨ r.blinds = some "") → c.blinds = "-")
    ∧ ((r.min_buyin = none ∨ r.min_buyin = some "") → c.min_buyin = "-")
    ∧ ((r.game_time = none ∨ r.game_time = some "") → c.game_time = "-")
    ∧ (r.current_players = none →
        c.players = "0 / " ++ toString (orTen r.max_players) ++ " Playing")
    ∧ (r.max_players = none →
        c.players = toString (orZero r.current_players) ++ " / 10 Playing")
    ∧ (∀ s, r.status = some s → c.status = jsToUpper s)
    ∧ renderRooms [tableA] = ([Node.card tableACard], false) := by
  obtain ⟨s, hs, hc⟩ : ∃ s, r.status = some s ∧ mkCard r s = c := by
    cases ht : r.status with
    | none => rw [renderCard, ht] at h; exact absurd h (by simp)
    | some s =>
      rw [renderCard, ht] at h
      exact ⟨s, rfl, by simpa using h⟩
  subst hc
  refine ⟨?_, ?_, ?_, ?_, ?_, ?_, by decide⟩
  · rintro (hb | hb) <;> simp [mkCard, orDash, hb]
  · rintro (hb | hb) <;> simp [mkCard, orDash, hb]
  · rintro (hb | hb) <;> simp [mkCard, orDash, hb]
  · intro hb
    simp only [mkCard, orZero, hb]
    rw [show (toString (0 : Nat) ++ " / " : String) = "0 / " from by decide]
  · intro hb
    simp only [mkCard, orTen, hb]
    rw [String.append_assoc, String.append_assoc,
      show (" / " ++ (toString (10 : Nat) ++ " Playing") : String)
        = " / 10 Playing" from by decide]
  · intro s' hs'; rw [hs] at hs'; cases hs'; simp [mkCard]

/-- C5 counterexample: the claim lists `status` among the text fields
rendered as the dash glyph, but a record with the degenerate status
`""` renders its status as `""`, not `"-"`. -/
theorem c5_cex :
    Option.map RoomCard.status (renderCard emptyStatusRoom) = some ""
    ∧ ("" : String) ≠ "-" := by decide

/-- C5 witness: the amended theorem applied to the example record,
whose absent `blinds` field renders as the dash glyph. -/
theorem c5_witness :
    renderCard tableA = some tableACard ∧ tableACard.blinds = "-" :=
  ⟨by decide, (c5_defaults tableA tableACard (by decide)).1 (Or.inl rfl)⟩

/-- C10: for every non-empty room list containing a record with an
absent status, `renderRooms` throws (`status.toUpperCase()` on a
missing value) after the container has already been cleared, leaving
strictly fewer card nodes than records (empty or partial), and a
refresh tick that reaches the renderer with such a list replaces the
displayed list with that partial content rather than leaving it
unchanged. -/
theorem c10_missing_status_throws (rooms : List RoomRecord)
    (h1 : rooms ≠ []) (h2 : ∃ r ∈ rooms, r.status = none) :
    (renderRooms rooms).snd = true
    ∧ (renderRooms rooms).fst.length < rooms.length
    ∧ ∀ st : St, (refreshTick st (FetchRes.ok rooms)).fst.roomList
        = (renderRooms rooms).fst := by
  have hb := renderRoomsAux_bad rooms h2
  rw [renderRooms_ne_nil h1]
  refine ⟨hb.1, hb.2, ?_⟩
  intro st
  rw [refreshTick, renderRooms_ne_nil h1]

/-- C10 witness: the theorem applied to a two-record list whose second
record lacks a status: only the first card is produced. -/
theorem c10_witness :
    ([tableA, badRoom] : List RoomRecord) ≠ []
    ∧ (∃ r ∈ [tableA, badRoom], r.status = none)
    ∧ (renderRooms [tableA, badRoom]).snd = true :=
  ⟨by decide, ⟨badRoom, by decide, by decide⟩,
    (c10_missing_status_throws [tableA, badRoom] (by decide)
      ⟨badRoom, by decide, by decide⟩).1⟩

/-- A page state currently displaying one room card. -/
def stShown : St :=
  { roomList := [Node.card tableACard], bannerSlides := [],
    swiper := some 0, cache := StoredCache.absent }

/-- A page state before any render, with no cache entry. -/
def stEmpty : St :=
  { roomList := [], bannerSlides := [], swiper := none,
    cache := StoredCache.absent }

/-- C3 counterexample: a tick whose fetch succeeds with a record lacking
a status fails (the render throws, the error is caught and logged), yet
the displayed room list is not left unchanged — it has been cleared. -/
theorem c3_cex :
    Ev.errLog ∈ (refreshTick stShown (FetchRes.ok [badRoom])).snd
    ∧ (refreshTick stShown (FetchRes.ok [badRoom])).fst.roomList
        ≠ stShown.roomList := by decide

/-- C3 (amended): for every periodic refresh tick whose fetch fails
(transport error or non-success status), the error is logged and the
page state — in particular the rendered room list — is left completely
unchanged.  (The restriction to fetch failures is forced by the
counterexample: a tick that fetches successfully but throws while
rendering also fails and is logged, yet leaves the list cleared or
partially populated.) -/
theorem c3_tick_failure (st : St) (r : FetchRes (List RoomRecord))
    (h : r.isOk = false) :
    (refreshTick st r).fst = st ∧ Ev.errLog ∈ (refreshTick st r).snd := by
  cases r with
  | ok rooms => simp [FetchRes.isOk] at h
  | netError => simp [refreshTick]
  | httpError code => simp [refreshTick]

/-- C3 witness: the amended theorem applied to a rejected fetch against
a state showing one card. -/
theorem c3_witness :
    (FetchRes.netError : FetchRes (List RoomRecord)).isOk = false
    ∧ (refreshTick stShown FetchRes.netError).fst = stShown :=
  ⟨by decide, (c3_tick_failure stShown FetchRes.netError (by decide)).1⟩

theorem issued_not_mem_displayBanners (st : St) (bs : List BannerRecord)
    (ep : Endpoint) : Ev.issued ep ∉ (displayBanners st bs).snd := by
  cases h : st.swiper <;> simp [displayBanners, h]

theorem loadDataRest_no_issued (st : St) (r : Resp) (ep : Endpoint) :
    Ev.issued ep ∉ (loadDataRest st r).snd := by
  rcases hb : r.banners with _ | code | bs <;>
    rcases hr : r.rooms with _ | code2 | rs <;>
      simp [loadDataRest, hb, hr]
  by_cases ht : (renderRooms rs).snd <;>
    simp [ht, issued_not_mem_displayBanners]

/-- C6: for every initial-load render pass, `loadData` issues the
banner fetch and the room fetch as its first two observable events —
both requests are in flight before either resolves (and no further
request is issued by the pass). -/
theorem c6_concurrent_fetches (st : St) (r : Resp) :
    ∃ rest, (loadData st r).snd
        = Ev.issued Endpoint.banners :: Ev.issued Endpoint.rooms :: rest
      ∧ ∀ ep, Ev.issued ep ∉ rest := by
  exact ⟨(loadDataRest st r).snd, rfl, loadDataRest_no_issued st r⟩

theorem displayBanners_swiper_none (st : St) (bs : List BannerRecord)
    (h : st.swiper = none) :
    displayBanners st bs
      = ({ st with bannerSlides := slidesFor bs, swiper := some 0 },
         [Ev.renderedBanners (slidesFor bs), Ev.swiperNew]) := by
  simp [displayBanners, h]

theorem displayBanners_swiper_some (st : St) (bs : List BannerRecord)
    (n : Nat) (h : st.swiper = some n) :
    displayBanners st bs
      = ({ st with bannerSlides := slidesFor bs, swiper := some (n + 1) },
         [Ev.renderedBanners (slidesFor bs), Ev.swiperUpdate]) := by
  simp [displayBanners, h]

theorem runBanners_no_new : ∀ (cs : List (List BannerRecord)) (st : St),
    st.swiper.isSome = true →
    (runBanners st cs).snd.count Ev.swiperNew = 0
      ∧ (runBanners st cs).fst.swiper.isSome = true
  | [], st, h => ⟨rfl, h⟩
  | bs :: rest, st, h => by
    obtain ⟨n, hn⟩ := Option.isSome_iff_exists.mp h
    have hd := displayBanners_swiper_some st bs n hn
    have ih := runBanners_no_new rest
      { st with bannerSlides := slidesFor bs, swiper := some (n + 1) }
      (by simp)
    constructor
    · simp [runBanners, hd, List.count_append, ih.1]
    · simp [runBanners, hd, ih.2]

/-- C7: starting from a page whose carousel widget is not yet
constructed, any non-empty sequence of banner render calls constructs
the widget exactly once (on the first call); every call made while the
widget exists emits no construction, updates the existing instance in
place, and leaves the same instance (its update counter bumped); and a
first call with an empty banner list renders exactly the one
administrative-contact placeholder slide and constructs (does not
update) the widget. -/
theorem c7_swiper_once (st : St) (c : List BannerRecord)
    (cs : List (List BannerRecord)) (h : st.swiper = none) :
    (runBanners st (c :: cs)).snd.count Ev.swiperNew = 1
    ∧ Ev.swiperNew ∈ (displayBanners st c).snd
    ∧ (∀ (st' : St) (bs : List BannerRecord), st'.swiper.isSome = true →
        (displayBanners st' bs).snd.count Ev.swiperNew = 0
        ∧ Ev.swiperUpdate ∈ (displayBanners st' bs).snd
        ∧ (displayBanners st' bs).fst.swiper = Option.map (· + 1) st'.swiper)
    ∧ (c = [] →
        (displayBanners st c).fst.bannerSlides = [Slide.placeholder]
        ∧ (displayBanners st c).snd
            = [Ev.renderedBanners [Slide.placeholder], Ev.swiperNew]) := by
  have hd := displayBanners_swiper_none st c h
  refine ⟨?_, ?_, ?_, ?_⟩
  · have ih := runBanners_no_new cs
      { st with bannerSlides := slidesFor c, swiper := some 0 } (by simp)
    simp [runBanners, hd, List.count_append, ih.1]
  · rw [hd]; simp
  · intro st' bs h'
    obtain ⟨n, hn⟩ := Option.isSome_iff_exists.mp h'
    have hd' := displayBanners_swiper_some st' bs n hn
    simp [hd', hn]
  · intro hc
    subst hc
    rw [hd]
    exact ⟨rfl, rfl⟩

/-- C7 witness: from a fresh page, an empty-banner call followed by a
one-banner call constructs the widget exactly once. -/
theorem c7_witness :
    stEmpty.swiper = none
    ∧ (runBanners stEmpty [[], [banner1]]).snd.count Ev.swiperNew = 1 :=
  ⟨rfl, (c7_swiper_once stEmpty [] [[banner1]] rfl).1⟩

/- Component lemmas about the loaders. -/

theorem displayBanners_cache (st : St) (bs : List BannerRecord) :
    (displayBanners st bs).fst.cache = st.cache := by
  cases h : st.swiper <;> simp [displayBanners, h]

theorem displayBanners_roomList (st : St) (bs : List BannerRecord) :
    (displayBanners st bs).fst.roomList = st.roomList := by
  cases h : st.swiper <;> simp [displayBanners, h]

theorem displayBanners_bannerSlides (st : St) (bs : List BannerRecord) :
    (displayBanners st bs).fst.bannerSlides = slidesFor bs := by
  cases h : st.swiper <;> simp [displayBanners, h]

theorem displayBanners_agree (st st' : St) (bs : List BannerRecord)
    (hw : st.swiper = st'.swiper) :
    (displayBanners st bs).snd = (displayBanners st' bs).snd
    ∧ (displayBanners st bs).fst.swiper
        = (displayBanners st' bs).fst.swiper := by
  cases h : st.swiper with
  | none => simp [displayBanners, h, hw.symm.trans h]
  | some n => simp [displayBanners, h, hw.symm.trans h]

theorem loadDataRest_cache (st : St) (r : Resp) :
    (loadDataRest st r).fst.cache = st.cache := by
  rcases hb : r.banners with _ | code | bs <;>
    rcases hr : r.rooms with _ | code2 | rs <;>
      simp [loadDataRest, hb, hr]
  by_cases ht : (renderRooms rs).snd <;>
    simp [ht, displayBanners_cache]

theorem loadData_cache (st : St) (r : Resp) :
    (loadData st r).fst.cache = st.cache := by
  simp [loadData, loadDataRest_cache]

theorem loadDataRest_rendered (st : St) (r : Resp)
    (bs : List BannerRecord) (rs : List RoomRecord)
    (hb : r.banners = FetchRes.ok bs) (hr : r.rooms = FetchRes.ok rs) :
    Ev.renderedRooms (renderRooms rs).fst ∈ (loadDataRest st r).snd := by
  simp only [loadDataRest, hb, hr]
  by_cases ht : (renderRooms rs).snd <;> simp [ht]

theorem loadDataRest_rendered_banners (st : St) (r : Resp)
    (bs : List BannerRecord) (rs : List RoomRecord)
    (hb : r.banners = FetchRes.ok bs) (hr : r.rooms = FetchRes.ok rs) :
    Ev.renderedBanners (slidesFor bs) ∈ (loadDataRest st r).snd := by
  have hdb : Ev.renderedBanners (slidesFor bs) ∈ (displayBanners st bs).snd := by
    cases h : st.swiper <;> simp [displayBanners, h]
  simp only [loadDataRest, hb, hr]
  by_cases ht : (renderRooms rs).snd <;> simp [ht, hdb]

theorem cacheWrite_not_mem_displayBanners (st : St)
    (bs : List BannerRecord) (e : CacheEntry) :
    Ev.cacheWrite e ∉ (displayBanners st bs).snd := by
  cases h : st.swiper <;> simp [displayBanners, h]

theorem loadDataRest_no_cacheWrite (st : St) (r : Resp) (e : CacheEntry) :
    Ev.cacheWrite e ∉ (loadDataRest st r).snd := by
  rcases hb : r.banners with _ | code | bs <;>
    rcases hr : r.rooms with _ | code2 | rs <;>
      simp [loadDataRest, hb, hr]
  by_cases ht : (renderRooms rs).snd <;>
    simp [ht, cacheWrite_not_mem_displayBanners]

theorem loadData_no_cacheWrite (st : St) (r : Resp) (e : CacheEntry) :
    Ev.cacheWrite e ∉ (loadData st r).snd := by
  simp [loadData, issueEvs, loadDataRest_no_cacheWrite]

theorem savePath_ok (st : St) (r : Resp) (t : Int)
    (bs : List BannerRecord) (rs : List RoomRecord)
    (hb : r.banners = FetchRes.ok bs) (hr : r.rooms = FetchRes.ok rs) :
    savePath st r t
      = ({ st with cache := StoredCache.entry ⟨⟨bs, rs⟩, t⟩ },
         [Ev.issued Endpoint.banners, Ev.resolved Endpoint.banners,
          Ev.issued Endpoint.rooms, Ev.resolved Endpoint.rooms,
          Ev.cacheWrite ⟨⟨bs, rs⟩, t⟩]) := by
  simp [savePath, hb, hr]

theorem savePath_notOk (st : St) (r : Resp) (t : Int)
    (h : r.allOk = false) :
    (savePath st r t).fst = st
    ∧ ∀ e, Ev.cacheWrite e ∉ (savePath st r t).snd := by
  rcases hb : r.banners with _ | code | bs <;>
    rcases hr : r.rooms with _ | code2 | rs <;>
      simp [savePath, hb, hr]
  simp [Resp.allOk, FetchRes.isOk, hb, hr] at h

theorem savePath_roomList (st : St) (r : Resp) (t : Int) :
    (savePath st r t).fst.roomList = st.roomList := by
  rcases hb : r.banners with _ | code | bs <;>
    rcases hr : r.rooms with _ | code2 | rs <;>
      simp [savePath, hb, hr]

theorem savePath_bannerSlides (st : St) (r : Resp) (t : Int) :
    (savePath st r t).fst.bannerSlides = st.bannerSlides := by
  rcases hb : r.banners with _ | code | bs <;>
    rcases hr : r.rooms with _ | code2 | rs <;>
      simp [savePath, hb, hr]

theorem savePath_swiper (st : St) (r : Resp) (t : Int) :
    (savePath st r t).fst.swiper = st.swiper := by
  rcases hb : r.banners with _ | code | bs <;>
    rcases hr : r.rooms with _ | code2 | rs <;>
      simp [savePath, hb, hr]

theorem savePath_snd_const (st st' : St) (r : Resp) (t : Int) :
    (savePath st r t).snd = (savePath st' r t).snd := by
  rcases hb : r.banners with _ | code | bs <;>
    rcases hr : r.rooms with _ | code2 | rs <;>
      simp [savePath, hb, hr]

theorem missPath_fst (st : St) (env : Env) :
    (missPath st env).fst
      = (savePath (loadData st env.resp1).fst env.respSave
          env.nowSave).fst := rfl

theorem missPath_snd_decomp (st : St) (env : Env) :
    (missPath st env).snd
      = (loadData st env.resp1).snd
        ++ (savePath (loadData st env.resp1).fst env.respSave
            env.nowSave).snd
        ++ [Ev.ret] := rfl

theorem missPath_take2 (st : St) (env : Env) :
    (missPath st env).snd.take 2 = issueEvs := rfl

theorem missPath_cache_ok (st : St) (env : Env)
    (bs : List BannerRecord) (rs : List RoomRecord)
    (hb : env.respSave.banners = FetchRes.ok bs)
    (hr : env.respSave.rooms = FetchRes.ok rs) :
    (missPath st env).fst.cache
        = StoredCache.entry ⟨⟨bs, rs⟩, env.nowSave⟩
    ∧ Ev.cacheWrite ⟨⟨bs, rs⟩, env.nowSave⟩ ∈ (missPath st env).snd := by
  have hsv := savePath_ok (loadData st env.resp1).fst env.respSave
    env.nowSave bs rs hb hr
  constructor
  · rw [missPath_fst, hsv]
  · rw [missPath_snd_decomp, hsv]; simp

theorem missPath_cache_notOk (st : St) (env : Env)
    (h : env.respSave.allOk = false) :
    (missPath st env).fst.cache = st.cache
    ∧ ∀ e, Ev.cacheWrite e ∉ (missPath st env).snd := by
  have hsv := savePath_notOk (loadData st env.resp1).fst env.respSave
    env.nowSave h
  constructor
  · rw [missPath_fst, hsv.1, loadData_cache]
  · intro e
    rw [missPath_snd_decomp]
    simp [List.mem_append, loadData_no_cacheWrite, hsv.2 e]

theorem missPath_rendered (st : St) (env : Env)
    (bs : List BannerRecord) (rs : List RoomRecord)
    (hb : env.resp1.banners = FetchRes.ok bs)
    (hr : env.resp1.rooms = FetchRes.ok rs) :
    Ev.renderedRooms (renderRooms rs).fst ∈ (missPath st env).snd := by
  have hm := loadDataRest_rendered st env.resp1 bs rs hb hr
  rw [missPath_snd_decomp]
  simp [loadData, List.mem_append, hm]

theorem ldwc_absent (st : St) (env : Env)
    (h : st.cache = StoredCache.absent) :
    loadDataWithCache st env = missPath st env := by
  simp [loadDataWithCache, h]

theorem ldwc_malformed (st : St) (env : Env)
    (h : st.cache = StoredCache.malformed) :
    loadDataWithCache st env
      = ((missPath st env).fst, Ev.cacheWarn :: (missPath st env).snd) := by
  simp [loadDataWithCache, h]

theorem ldwc_stale (st : St) (env : Env) (e : CacheEntry)
    (hc : st.cache = StoredCache.entry e)
    (h : ¬ env.now - e.timestamp < CACHE_DURATION) :
    loadDataWithCache st env = missPath st env := by
  simp [loadDataWithCache, hc, h]

theorem renderRooms_not_throw (rooms : List RoomRecord)
    (hok : roomsOk rooms = true) :
    (renderRooms rooms).snd = false := by
  cases hr : rooms with
  | nil => rfl
  | cons a l =>
    rw [← hr, renderRooms_ne_nil (by rw [hr]; simp),
      renderRoomsAux_ok rooms hok]

theorem ldwc_fresh (st : St) (env : Env) (e : CacheEntry)
    (hc : st.cache = StoredCache.entry e)
    (hfresh : env.now - e.timestamp < CACHE_DURATION)
    (hok : roomsOk e.data.rooms = true) :
    loadDataWithCache st env
      = ((loadDataRest
            { (displayBanners st e.data.banners).fst with
                roomList := (renderRooms e.data.rooms).fst } env.resp1).fst,
         (displayBanners st e.data.banners).snd
           ++ [Ev.renderedRooms (renderRooms e.data.rooms).fst, Ev.bgStart]
           ++ issueEvs ++ [Ev.ret]
           ++ (loadDataRest
                { (displayBanners st e.data.banners).fst with
                    roomList := (renderRooms e.data.rooms).fst }
                env.resp1).snd) := by
  have hthrew := renderRooms_not_throw e.data.rooms hok
  simp [loadDataWithCache, hc, hfresh, hthrew]

theorem servedFromCache_displayBanners (st : St)
    (bs : List BannerRecord) (rest : List Ev) :
    servedFromCache ((displayBanners st bs).snd ++ rest) = true := by
  cases h : st.swiper <;> simp [displayBanners, h, servedFromCache]

theorem servedFromCache_missPath (st : St) (env : Env) :
    servedFromCache (missPath st env).snd = false := rfl

theorem renderedBanners_mem_displayBanners (st : St)
    (bs : List BannerRecord) :
    Ev.renderedBanners (slidesFor bs) ∈ (displayBanners st bs).snd := by
  cases h : st.swiper <;> simp [displayBanners, h]

/-- The behavior C1 requires of a cache-miss read: the run opens by
issuing both endpoint fetches, renders the fetched rooms when the
load-pair succeeds, and, when the save-pair succeeds, persists a new
cache entry stamped with the save-time clock. -/
def MissSpec (st : St) (env : Env) : Prop :=
  (loadDataWithCache st env).snd.take 2 = issueEvs
  ∧ (∀ bs rs, env.resp1.banners = FetchRes.ok bs →
      env.resp1.rooms = FetchRes.ok rs →
      Ev.renderedRooms (renderRooms rs).fst ∈ (loadDataWithCache st env).snd)
  ∧ (∀ bs rs, env.respSave.banners = FetchRes.ok bs →
      env.respSave.rooms = FetchRes.ok rs →
      (loadDataWithCache st env).fst.cache
        = StoredCache.entry ⟨⟨bs, rs⟩, env.nowSave⟩)

theorem missSpec_of_missPath (st : St) (env : Env)
    (heq : loadDataWithCache st env = missPath st env) :
    MissSpec st env := by
  refine ⟨?_, fun bs rs hb hr => ?_, fun bs rs hb hr => ?_⟩
  · rw [heq]; exact missPath_take2 st env
  · rw [heq]; exact missPath_rendered st env bs rs hb hr
  · rw [heq]; exact (missPath_cache_ok st env bs rs hb hr).1

/-- An already-written cache entry: the example record, captured at
time 1000. -/
def eOld : CacheEntry :=
  { data := { banners := [], rooms := [tableA] }, timestamp := 1000 }

/-- A page state whose cache slot holds that entry. -/
def stFresh : St :=
  { roomList := [], bannerSlides := [], swiper := none,
    cache := StoredCache.entry eOld }

/-- A page state whose cache slot holds an unparsable value. -/
def stMal : St :=
  { roomList := [], bannerSlides := [], swiper := none,
    cache := StoredCache.malformed }

/-- An environment read at time 2000 (the stored entry is well within
the 5-minute window) whose network returns fresh data differing from
the cached data. -/
def envFresh : Env :=
  { now := 2000,
    resp1 := { banners := FetchRes.ok [banner1],
               rooms := FetchRes.ok [room2] },
    respSave := { banners := FetchRes.ok [], rooms := FetchRes.ok [] },
    nowSave := 5000 }

/-- An environment whose initial load succeeds but whose cache-save
banner fetch rejects at the transport level. -/
def envSaveFail : Env :=
  { now := 0,
    resp1 := { banners := FetchRes.ok [banner1],
               rooms := FetchRes.ok [room2] },
    respSave := { banners := FetchRes.netError, rooms := FetchRes.ok [] },
    nowSave := 99 }

/-- C1: for every read of the cache slot (a parsed stored entry whose
cached rooms are renderable, or an absent slot), the entry is treated
as fresh — the run is served from cache — exactly when
`now - timestamp < 5 minutes`; a fresh read renders the cached banners
and the cached rooms before any network request is issued; a stale or
absent read opens with a network fetch of both endpoints, renders the
fetched result, and, when the save fetches succeed, persists a new
cache entry stamped with the save-time clock. -/
theorem c1_cache_freshness (env : Env) :
    (∀ (st : St) (e : CacheEntry), st.cache = StoredCache.entry e →
      roomsOk e.data.rooms = true →
      ((servedFromCache (loadDataWithCache st env).snd = true
          ↔ env.now - e.timestamp < CACHE_DURATION)
       ∧ (env.now - e.timestamp < CACHE_DURATION →
           ∃ pre rest,
             (loadDataWithCache st env).snd = pre ++ issueEvs ++ rest
             ∧ Ev.renderedBanners (slidesFor e.data.banners) ∈ pre
             ∧ Ev.renderedRooms (renderRooms e.data.rooms).fst ∈ pre)
       ∧ (CACHE_DURATION ≤ env.now - e.timestamp → MissSpec st env)))
    ∧ (∀ st : St, st.cache = StoredCache.absent → MissSpec st env) := by
  constructor
  · intro st e hc hok
    by_cases hfresh : env.now - e.timestamp < CACHE_DURATION
    · have heq := ldwc_fresh st env e hc hfresh hok
      refine ⟨⟨fun _ => hfresh, fun _ => ?_⟩, fun _ => ?_, fun hstale => ?_⟩
      · rw [heq]
        simp only [List.append_assoc]
        exact servedFromCache_displayBanners st e.data.banners _
      · refine ⟨(displayBanners st e.data.banners).snd
            ++ [Ev.renderedRooms (renderRooms e.data.rooms).fst, Ev.bgStart],
          Ev.ret
            :: (loadDataRest
                { (displayBanners st e.data.banners).fst with
                    roomList := (renderRooms e.data.rooms).fst }
                env.resp1).snd, ?_, ?_, ?_⟩
        · rw [heq]; simp [List.append_assoc]
        · simp [renderedBanners_mem_displayBanners]
        · simp
      · exact absurd hfresh (not_lt.mpr hstale)
    · have heq := ldwc_stale st env e hc hfresh
      refine ⟨⟨fun hserved => ?_, fun hf => absurd hf hfresh⟩,
        fun hf => absurd hf hfresh, fun _ => ?_⟩
      · rw [heq, servedFromCache_missPath] at hserved
        exact absurd hserved (by simp)
      · exact missSpec_of_missPath st env heq
  · intro st hc
    exact missSpec_of_missPath st env (ldwc_absent st env hc)

/-- C1 witness: a slot written at time 1000 and read at time 2000 is
served from cache. -/
theorem c1_witness :
    stFresh.cache = StoredCache.entry eOld
    ∧ roomsOk eOld.data.rooms = true
    ∧ envFresh.now - eOld.timestamp < CACHE_DURATION
    ∧ servedFromCache (loadDataWithCache stFresh envFresh).snd = true :=
  ⟨rfl, by decide, by decide,
    ((c1_cache_freshness envFresh).1 stFresh eOld rfl (by decide)).1.mpr
      (by decide)⟩

/-- C2 counterexample: on a fresh-cache load whose background refresh
resolves successfully and re-renders, the cache slot still holds the
old entry afterwards — it is NOT overwritten with the newly fetched
data, contradicting the claim. -/
theorem c2_cex :
    stFresh.cache = StoredCache.entry eOld
    ∧ envFresh.now - eOld.timestamp < CACHE_DURATION
    ∧ envFresh.resp1.allOk = true
    ∧ Ev.renderedRooms (renderRooms [room2]).fst
        ∈ (loadDataWithCache stFresh envFresh).snd
    ∧ (loadDataWithCache stFresh envFresh).fst.cache
        = StoredCache.entry eOld
    ∧ eOld.data.rooms ≠ [room2] := by decide

/-- C2 (amended): on every initial load that finds a fresh cache entry,
after rendering from the cache a background refresh of both endpoints
is issued unconditionally and without blocking the caller (both fetches
are issued before control returns, and no response is consumed before
that); when the refresh resolves successfully it re-renders the rooms
and banners from the fetched data — but it does NOT write the cache
slot, which still holds the pre-existing entry (only the cache-miss
path writes the slot). -/
theorem c2_bg_refresh (st : St) (env : Env) (e : CacheEntry)
    (hc : st.cache = StoredCache.entry e)
    (hfresh : env.now - e.timestamp < CACHE_DURATION)
    (hok : roomsOk e.data.rooms = true) :
    (∃ pre post, (loadDataWithCache st env).snd = pre ++ Ev.ret :: post
      ∧ Ev.bgStart ∈ pre
      ∧ Ev.issued Endpoint.banners ∈ pre
      ∧ Ev.issued Endpoint.rooms ∈ pre
      ∧ (∀ ep, Ev.resolved ep ∉ pre)
      ∧ (∀ bs rs, env.resp1.banners = FetchRes.ok bs →
          env.resp1.rooms = FetchRes.ok rs →
          Ev.renderedRooms (renderRooms rs).fst ∈ post
          ∧ Ev.renderedBanners (slidesFor bs) ∈ post))
    ∧ (loadDataWithCache st env).fst.cache = StoredCache.entry e := by
  have heq := ldwc_fresh st env e hc hfresh hok
  constructor
  · refine ⟨(displayBanners st e.data.banners).snd
        ++ [Ev.renderedRooms (renderRooms e.data.rooms).fst, Ev.bgStart]
        ++ issueEvs,
      (loadDataRest
        { (displayBanners st e.data.banners).fst with
            roomList := (renderRooms e.data.rooms).fst } env.resp1).snd,
      ?_, ?_, ?_, ?_, ?_, ?_⟩
    · rw [heq]; simp [List.append_assoc, issueEvs]
    · simp
    · simp [issueEvs]
    · simp [issueEvs]
    · intro ep
      have h1 : Ev.resolved ep ∉ (displayBanners st e.data.banners).snd := by
        cases h : st.swiper <;> simp [displayBanners, h]
      simp [List.mem_append, issueEvs, h1]
    · intro bs rs hb hr
      exact ⟨loadDataRest_rendered _ env.resp1 bs rs hb hr,
        loadDataRest_rendered_banners _ env.resp1 bs rs hb hr⟩
  · rw [heq]
    simp [loadDataRest_cache, displayBanners_cache, hc]

/-- C2 witness: the amended theorem applied to the fresh-cache example
environment: the slot still holds the old entry. -/
theorem c2_witness :
    stFresh.cache = StoredCache.entry eOld
    ∧ envFresh.now - eOld.timestamp < CACHE_DURATION
    ∧ roomsOk eOld.data.rooms = true
    ∧ (loadDataWithCache stFresh envFresh).fst.cache
        = StoredCache.entry eOld :=
  ⟨rfl, by decide, by decide,
    (c2_bg_refresh stFresh envFresh eOld rfl (by decide) (by decide)).2⟩

theorem loadData_roomList_const (st st' : St) (r : Resp) :
    (loadData st r).fst.roomList = (loadData st' r).fst.roomList := by
  rcases hb : r.banners with _ | code | bs <;>
    rcases hr : r.rooms with _ | code2 | rs <;>
      simp [loadData, loadDataRest, hb, hr]
  by_cases ht : (renderRooms rs).snd <;> simp [ht]

theorem loadData_bannerSlides_agree (st st' : St) (r : Resp)
    (h : st.bannerSlides = st'.bannerSlides) :
    (loadData st r).fst.bannerSlides
      = (loadData st' r).fst.bannerSlides := by
  rcases hb : r.banners with _ | code | bs <;>
    rcases hr : r.rooms with _ | code2 | rs <;>
      simp [loadData, loadDataRest, hb, hr, h]
  by_cases ht : (renderRooms rs).snd <;>
    simp [ht, displayBanners_bannerSlides]

theorem loadData_swiper_agree (st st' : St) (r : Resp)
    (h : st.swiper = st'.swiper) :
    (loadData st r).fst.swiper = (loadData st' r).fst.swiper := by
  rcases hb : r.banners with _ | code | bs <;>
    rcases hr : r.rooms with _ | code2 | rs <;>
      simp [loadData, loadDataRest, hb, hr, h]
  by_cases ht : (renderRooms rs).snd <;>
    simp [ht, (displayBanners_agree st st' bs h).2]

theorem loadData_snd_agree (st st' : St) (r : Resp)
    (h : st.swiper = st'.swiper) :
    (loadData st r).snd = (loadData st' r).snd := by
  rcases hb : r.banners with _ | code | bs <;>
    rcases hr : r.rooms with _ | code2 | rs <;>
      simp [loadData, loadDataRest, hb, hr]
  by_cases ht : (renderRooms rs).snd <;>
    simp [ht, (displayBanners_agree st st' bs h).1]

theorem missPath_agree (st st' : St) (env : Env)
    (hbs : st.bannerSlides = st'.bannerSlides)
    (hw : st.swiper = st'.swiper) :
    (missPath st env).snd = (missPath st' env).snd
    ∧ (missPath st env).fst.roomList = (missPath st' env).fst.roomList
    ∧ (missPath st env).fst.bannerSlides
        = (missPath st' env).fst.bannerSlides
    ∧ (missPath st env).fst.swiper = (missPath st' env).fst.swiper := by
  refine ⟨?_, ?_, ?_, ?_⟩
  · rw [missPath_snd_decomp, missPath_snd_decomp,
      loadData_snd_agree st st' _ hw,
      savePath_snd_const (loadData st env.resp1).fst
        (loadData st' env.resp1).fst env.respSave env.nowSave]
  · rw [missPath_fst, missPath_fst, savePath_roomList, savePath_roomList,
      loadData_roomList_const st st']
  · rw [missPath_fst, missPath_fst, savePath_bannerSlides,
      savePath_bannerSlides, loadData_bannerSlides_agree st st' _ hbs]
  · rw [missPath_fst, missPath_fst, savePath_swiper, savePath_swiper,
      loadData_swiper_agree st st' _ hw]

/-- C8: a stored cache value that fails to parse is caught and logged
(the trace is the parse-failure warning followed by exactly the trace
of the same run with an absent slot), the network load path is taken
(the first events after the warning are the two endpoint fetches), and
the resulting display — room list, banner slides, carousel state — is
exactly what an absent slot would have produced; no error escapes (the
run completes like any other). -/
theorem c8_malformed_cache (st : St) (env : Env)
    (h : st.cache = StoredCache.malformed) :
    (loadDataWithCache st env).snd
        = Ev.cacheWarn
            :: (loadDataWithCache
                { st with cache := StoredCache.absent } env).snd
    ∧ (loadDataWithCache st env).fst.roomList
        = (loadDataWithCache
            { st with cache := StoredCache.absent } env).fst.roomList
    ∧ (loadDataWithCache st env).fst.bannerSlides
        = (loadDataWithCache
            { st with cache := StoredCache.absent } env).fst.bannerSlides
    ∧ (loadDataWithCache st env).fst.swiper
        = (loadDataWithCache
            { st with cache := StoredCache.absent } env).fst.swiper
    ∧ (loadDataWithCache st env).snd.take 3
        = [Ev.cacheWarn, Ev.issued Endpoint.banners,
           Ev.issued Endpoint.rooms] := by
  have hm := ldwc_malformed st env h
  have ha := ldwc_absent { st with cache := StoredCache.absent } env rfl
  have hag := missPath_agree st { st with cache := StoredCache.absent }
    env rfl rfl
  refine ⟨?_, ?_, ?_, ?_, ?_⟩
  · rw [hm, ha]; simp [hag.1]
  · rw [hm, ha]; simp [hag.2.1]
  · rw [hm, ha]; simp [hag.2.2.1]
  · rw [hm, ha]; simp [hag.2.2.2]
  · rw [hm]
    show (Ev.cacheWarn :: (missPath st env).snd).take 3 = _
    rw [List.take_succ_cons, missPath_take2]
    rfl

/-- C8 witness: the theorem applied to a malformed slot: the warning is
logged and the network path is taken. -/
theorem c8_witness :
    stMal.cache = StoredCache.malformed
    ∧ (loadDataWithCache stMal envFresh).snd.take 3
        = [Ev.cacheWarn, Ev.issued Endpoint.banners,
           Ev.issued Endpoint.rooms] :=
  ⟨rfl, (c8_malformed_cache stMal envFresh rfl).2.2.2.2⟩

theorem savePath_counts (st : St) (r : Resp) (t : Int)
    (h : r.banners ≠ FetchRes.netError) :
    (savePath st r t).snd.take 4
        = [Ev.issued Endpoint.banners, Ev.resolved Endpoint.banners,
           Ev.issued Endpoint.rooms, Ev.resolved Endpoint.rooms]
    ∧ (savePath st r t).snd.count (Ev.issued Endpoint.banners) = 1
    ∧ (savePath st r t).snd.count (Ev.issued Endpoint.rooms) = 1 := by
  rcases hb : r.banners with _ | code | bs
  · exact absurd hb h
  · rcases hr : r.rooms with _ | code2 | rs <;>
      simp only [savePath, hb, hr] <;>
        exact ⟨rfl, by decide, by decide⟩
  · rcases hr : r.rooms with _ | code2 | rs <;>
      simp only [savePath, hb, hr]
    · exact ⟨rfl, by decide, by decide⟩
    · exact ⟨rfl, by decide, by decide⟩
    · refine ⟨rfl, ?_, ?_⟩ <;>
        simp [List.count_cons]

theorem loadData_count_issued (st : St) (r : Resp) (ep : Endpoint) :
    (loadData st r).snd.count (Ev.issued ep) = 1 := by
  have h0 : (loadDataRest st r).snd.count (Ev.issued ep) = 0 :=
    List.count_eq_zero.mpr (loadDataRest_no_issued st r ep)
  show (issueEvs ++ (loadDataRest st r).snd).count (Ev.issued ep) = 1
  rw [List.count_append, h0]
  cases ep <;> decide

/-- C9 counterexample: a cache-miss run whose initial load succeeds but
whose save-path banner fetch rejects issues the rooms request only
once, not twice as the claim states. -/
theorem c9_cex :
    stEmpty.cache = StoredCache.absent
    ∧ envSaveFail.resp1.allOk = true
    ∧ (loadDataWithCache stEmpty envSaveFail).snd.count
        (Ev.issued Endpoint.rooms) = 1
    ∧ ¬ (loadDataWithCache stEmpty envSaveFail).snd.count
        (Ev.issued Endpoint.rooms) = 2 := by decide

/-- C9 (amended): on every cache-miss run whose initial concurrent load
succeeds, the run is the initial load followed by the save-path fetch
pair; whenever the save-path banner fetch does not reject, the save
pair is sequential — banners issued and resolved before rooms is
issued — and each endpoint is then requested exactly twice for the
miss; when both save fetches succeed the persisted entry is built from
the second fetch pair (which may differ from what was rendered); when
either save fetch fails or is non-success, nothing is written and the
slot is unchanged.  (The claim's unconditional "each endpoint is
requested twice" is cut down by the counterexample: a transport
rejection of the save-path banner fetch skips the second rooms
request.) -/
theorem c9_save_refetch (st : St) (env : Env)
    (bs1 : List BannerRecord) (rs1 : List RoomRecord)
    (hc : st.cache = StoredCache.absent)
    (hb1 : env.resp1.banners = FetchRes.ok bs1)
    (hr1 : env.resp1.rooms = FetchRes.ok rs1) :
    (loadDataWithCache st env).snd
        = (loadData st env.resp1).snd
          ++ (savePath (loadData st env.resp1).fst env.respSave
              env.nowSave).snd
          ++ [Ev.ret]
    ∧ (env.respSave.banners ≠ FetchRes.netError →
        (savePath (loadData st env.resp1).fst env.respSave
            env.nowSave).snd.take 4
          = [Ev.issued Endpoint.banners, Ev.resolved Endpoint.banners,
             Ev.issued Endpoint.rooms, Ev.resolved Endpoint.rooms]
        ∧ (loadDataWithCache st env).snd.count
            (Ev.issued Endpoint.banners) = 2
        ∧ (loadDataWithCache st env).snd.count
            (Ev.issued Endpoint.rooms) = 2)
    ∧ (∀ bs rs, env.respSave.banners = FetchRes.ok bs →
        env.respSave.rooms = FetchRes.ok rs →
        (loadDataWithCache st env).fst.cache
          = StoredCache.entry ⟨⟨bs, rs⟩, env.nowSave⟩
        ∧ Ev.cacheWrite ⟨⟨bs, rs⟩, env.nowSave⟩
            ∈ (loadDataWithCache st env).snd)
    ∧ (env.respSave.allOk = false →
        (loadDataWithCache st env).fst.cache = st.cache
        ∧ ∀ e, Ev.cacheWrite e ∉ (loadDataWithCache st env).snd) := by
  have heq := ldwc_absent st env hc
  refine ⟨by rw [heq, missPath_snd_decomp], ?_, ?_, ?_⟩
  · intro hnb
    have hsc := savePath_counts (loadData st env.resp1).fst env.respSave
      env.nowSave hnb
    refine ⟨hsc.1, ?_, ?_⟩
    · rw [heq, missPath_snd_decomp, List.count_append, List.count_append,
        loadData_count_issued, hsc.2.1]
      decide
    · rw [heq, missPath_snd_decomp, List.count_append, List.count_append,
        loadData_count_issued, hsc.2.2]
      decide
  · intro bs rs hb hr
    rw [heq]
    exact missPath_cache_ok st env bs rs hb hr
  · intro hnot
    rw [heq]
    exact missPath_cache_notOk st env hnot

/-- C9 witness: the amended theorem applied to a fully successful miss
run: the entry persisted comes from the save pair and is stamped with
the save-time clock. -/
theorem c9_witness :
    stEmpty.cache = StoredCache.absent
    ∧ envFresh.resp1.banners = FetchRes.ok [banner1]
    ∧ envFresh.resp1.rooms = FetchRes.ok [room2]
    ∧ (loadDataWithCache stEmpty envFresh).fst.cache
        = StoredCache.entry ⟨⟨[], []⟩, 5000⟩ :=
  ⟨rfl, rfl, rfl,
    ((c9_save_refetch stEmpty envFresh [banner1] [room2] rfl rfl
      rfl).2.2.1 [] [] rfl rfl).1⟩

end PokerApp
